import Mathlib

/-
Verification of the meditation simulation engine (src/dharma_engine/meditation.py).

Modelling conventions:
* Python floats are modelled as exact rationals (ℚ).
* Randomness: every `random.random()` call made in the hindrance-pressure phase
  of a tick is supplied by a stream `pr : ℕ → ℚ`, consumed in call order
  (a draw is consumed only when the short-circuit condition `base > 0.6` holds,
  exactly as in the Python `and`).  The wandering-onset draw compares a uniform
  sample against `sigmoid(...) * 0.05`, a transcendental probability, so its
  Boolean outcome is supplied as an oracle bit `wb`; the lemma
  `sigmoid_prob_mem_Ioo` below shows this probability lies strictly between
  0 and 1, so both outcomes of the draw are realizable at every state.
* A Python `ZeroDivisionError` (raised by `elapsed_seconds / session_duration`
  when `session_duration = 0`) is modelled by `Except.error`, carrying the
  engine state at the moment the exception escapes (`elapsed_seconds` has
  already been incremented by then, nothing else has been mutated).
* The event log records, for each `_log` call, the tick time and which message
  was logged (numeric payloads of the Python f-strings are carried as fields of
  `Msg`; the surrounding literal text is not re-modelled).
-/

namespace Dharma

/-- The five hindrances: the keys of `FIVE_HINDRANCES`, in dict insertion order. -/
inductive Hid
  | sensual_desire
  | ill_will
  | sloth_torpor
  | restlessness
  | doubt
deriving DecidableEq, Repr

/-- Iteration order of the `FIVE_HINDRANCES` dict. -/
def hindranceOrder : List Hid :=
  [.sensual_desire, .ill_will, .sloth_torpor, .restlessness, .doubt]

/-- `stability_damage` field of each entry of `FIVE_HINDRANCES`. -/
def stabilityDamage : Hid → ℚ
  | .sensual_desire => 0.3
  | .ill_will => 0.4
  | .sloth_torpor => 0.1
  | .restlessness => 0.5
  | .doubt => 0.3

/-- `clarity_damage` field of each entry of `FIVE_HINDRANCES`. -/
def clarityDamage : Hid → ℚ
  | .sensual_desire => 0.1
  | .ill_will => 0.2
  | .sloth_torpor => 0.5
  | .restlessness => 0.1
  | .doubt => 0.2

/-- The seed bank (`self.seeds`): the ten keys installed by `__init__`. -/
structure Seeds where
  sloth_torpor : ℚ
  restlessness : ℚ
  sensual_desire : ℚ
  ill_will : ℚ
  doubt : ℚ
  mindfulness : ℚ
  concentration : ℚ
  diligence : ℚ
  tranquility : ℚ
  equanimity : ℚ
deriving DecidableEq, Repr

/-- `self.seeds.get(hid, 0.5)` for a hindrance key (all keys present here). -/
def Seeds.hind (s : Seeds) : Hid → ℚ
  | .sensual_desire => s.sensual_desire
  | .ill_will => s.ill_will
  | .sloth_torpor => s.sloth_torpor
  | .restlessness => s.restlessness
  | .doubt => s.doubt

/-- The five faculties (`self.particular`). -/
structure Particular where
  chanda : ℚ
  adhimoksa : ℚ
  smrti : ℚ
  samadhi : ℚ
  prajna : ℚ
deriving DecidableEq, Repr

/-- Which message a `self._log(...)` call recorded (numeric payload kept). -/
inductive Msg
  | start
  | hindranceArise (h : Hid)
  | wanderOff
  | dullArise
  | restlessArise
  | noticed (lat : ℚ)
  | returned (rt : ℚ)
deriving DecidableEq, Repr

/-- One event-log entry: `[{elapsed_seconds}s] {msg}`. -/
abbrev LogEntry := ℕ × Msg

/-- `MeditationState` (dataclass). `active_hindrances` is an insertion-ordered
dict from hindrance id to recorded strength. -/
structure MState where
  stability : ℚ
  clarity : ℚ
  on_object : Bool
  wandering_duration : ℚ
  noticing_latency : ℚ
  active_hindrances : List (Hid × ℚ)
  is_dull : Bool
  is_restless : Bool
  is_wandering : Bool
deriving DecidableEq, Repr

/-- `SessionStats` (dataclass). -/
structure SessStats where
  duration_seconds : ℤ
  on_object_ratio : ℚ
  clarity_ratio : ℚ
  avg_noticing_latency : ℚ
  avg_recovery_time : ℚ
  oscillation_count : ℕ
  wander_count : ℕ
  return_count : ℕ
  dull_episodes : ℕ
  restless_episodes : ℕ
  hindrance_activations : List (Hid × ℕ)
  on_object_time : ℚ
  clarity_time : ℚ
  noticing_latencies : List ℚ
  recovery_times : List ℚ
deriving DecidableEq, Repr

/-- The whole `MeditationEngine` object. `_last_state_change` is set in
`__init__` and never read, so it is omitted. -/
structure Engine where
  seeds : Seeds
  particular : Particular
  state : MState
  stats : SessStats
  elapsed_seconds : ℕ
  session_duration : ℤ
  event_log : List LogEntry
  last_on_object : Bool
  wander_start_time : ℕ
deriving DecidableEq, Repr

/-- `MeditationState()` defaults. -/
def initState : MState :=
  { stability := 0.5, clarity := 0.5, on_object := true, wandering_duration := 0,
    noticing_latency := 0, active_hindrances := [], is_dull := false,
    is_restless := false, is_wandering := false }

/-- `SessionStats()` defaults. -/
def initStats : SessStats :=
  { duration_seconds := 0, on_object_ratio := 0, clarity_ratio := 0,
    avg_noticing_latency := 0, avg_recovery_time := 0, oscillation_count := 0,
    wander_count := 0, return_count := 0, dull_episodes := 0,
    restless_episodes := 0, hindrance_activations := [], on_object_time := 0,
    clarity_time := 0, noticing_latencies := [], recovery_times := [] }

/-- The default seed bank installed by `__init__` when none is passed. -/
def defaultSeeds : Seeds :=
  { sloth_torpor := 0.5, restlessness := 0.5, sensual_desire := 0.5,
    ill_will := 0.5, doubt := 0.5, mindfulness := 0.5, concentration := 0.5,
    diligence := 0.5, tranquility := 0.5, equanimity := 0.5 }

/-- The default faculty map installed by `__init__` when none is passed. -/
def defaultParticular : Particular :=
  { chanda := 0.5, adhimoksa := 0.5, smrti := 0.5, samadhi := 0.5, prajna := 0.5 }

/-- `MeditationEngine.__init__` with the given trait stores. -/
def mkEngine (se : Seeds) (pa : Particular) : Engine :=
  { seeds := se, particular := pa, state := initState, stats := initStats,
    elapsed_seconds := 0, session_duration := 600, event_log := [],
    last_on_object := true, wander_start_time := 0 }

/-- `MeditationEngine._calculate_base_stability`. -/
def calcBaseStability (se : Seeds) (pa : Particular) : ℚ :=
  let base := pa.samadhi * 0.4 + pa.smrti * 0.3 + pa.adhimoksa * 0.2 + 0.1
  let base := base - se.restlessness * 0.2
  max 0.1 (min 0.9 base)

/-- `MeditationEngine._calculate_base_clarity`. -/
def calcBaseClarity (se : Seeds) (pa : Particular) : ℚ :=
  let base := pa.samadhi * 0.3 + pa.prajna * 0.4 + 0.3
  let base := base - se.sloth_torpor * 0.3
  max 0.1 (min 0.9 base)

/-- `MeditationEngine.start_session(duration_minutes)`. No validation of the
duration takes place. -/
def startSession (e : Engine) (duration_minutes : ℤ) : Engine :=
  let dur := duration_minutes * 60
  { e with
    session_duration := dur,
    elapsed_seconds := 0,
    state := { initState with
               stability := calcBaseStability e.seeds e.particular,
               clarity := calcBaseClarity e.seeds e.particular },
    stats := { initStats with duration_seconds := dur },
    event_log := [(0, Msg.start)],
    last_on_object := true,
    wander_start_time := 0 }

/-- The `max(0, min(1, x))` clamp the engine applies to seed values and to the
reported hindrance pressure. -/
def clamp01 (x : ℚ) : ℚ := max 0 (min 1 x)

/-- `min(1.0, self.elapsed_seconds / self.session_duration)`; the caller of
this definition must have ruled out `dur = 0` (ZeroDivisionError). -/
def fatigueFactor (elapsed : ℕ) (dur : ℤ) : ℚ :=
  min 1 ((elapsed : ℚ) / (dur : ℚ))

/-- The raw (pre-clamp) pressure `base` computed for one hindrance in
`_calculate_hindrance_pressure` (lines 343-358): the two `if hid == ...`
string comparisons are the case analysis below. -/
def hindranceBase (se : Seeds) (pa : Particular) (fat : ℚ) (h : Hid) : ℚ :=
  let base := se.hind h
  let base := match h with
              | .sloth_torpor => base + fat * 0.2
              | _ => base
  let base := match h with
              | .restlessness => base + (1 - fat) * 0.1
              | _ => base
  base - pa.smrti * 0.2

/-- `d.get(h, 0)` on an activation-count dict. -/
def getN (l : List (Hid × ℕ)) (h : Hid) : ℕ := (l.lookup h).getD 0

/-- `d[h] = v` on a Python dict modelled as an insertion-ordered list:
update in place if present, append otherwise. -/
def setN (l : List (Hid × ℕ)) (h : Hid) (v : ℕ) : List (Hid × ℕ) :=
  match l with
  | [] => [(h, v)]
  | p :: t => if p.1 = h then (h, v) :: t else p :: setN t h v

/-- Mutable context threaded through the `for` loop of
`_calculate_hindrance_pressure`: the pressure dict being built, the active
hindrance dict, the activation counters, the event log, and the number of
`random.random()` calls consumed so far this tick. -/
structure PressCtx where
  pressure : List (Hid × ℚ)
  active : List (Hid × ℚ)
  acts : List (Hid × ℕ)
  log : List LogEntry
  k : ℕ
deriving Repr

/-- One iteration of the `for hid, hindrance in FIVE_HINDRANCES.items()` loop
in `_calculate_hindrance_pressure` (lines 341-368).  A random draw is consumed
only when `base > 0.6` (Python's short-circuit `and`); the recorded strength is
the raw `base`, not the clamped pressure. -/
def hindranceStep (se : Seeds) (pa : Particular) (elapsed : ℕ) (dur : ℤ)
    (pr : ℕ → ℚ) (c : PressCtx) (h : Hid) : PressCtx :=
  let base := hindranceBase se pa (fatigueFactor elapsed dur) h
  let c1 := { c with pressure := c.pressure ++ [(h, clamp01 base)] }
  if 0.6 < base then
    let draw := pr c1.k
    let c2 := { c1 with k := c1.k + 1 }
    if draw < base * 0.1 then
      if (c2.active.lookup h).isNone then
        { c2 with
          active := c2.active ++ [(h, base)],
          acts := setN c2.acts h (getN c2.acts h + 1),
          log := c2.log ++ [(elapsed, Msg.hindranceArise h)] }
      else c2
    else c2
  else c1

/-- `MeditationEngine._calculate_hindrance_pressure`, returning the updated
engine (activations, counters, log) and the pressure dict. -/
def tickPressure (e : Engine) (pr : ℕ → ℚ) : Engine × List (Hid × ℚ) :=
  let c0 : PressCtx :=
    { pressure := [], active := e.state.active_hindrances,
      acts := e.stats.hindrance_activations, log := e.event_log, k := 0 }
  let c := hindranceOrder.foldl
    (hindranceStep e.seeds e.particular e.elapsed_seconds e.session_duration pr) c0
  ({ e with
     state := { e.state with active_hindrances := c.active },
     stats := { e.stats with hindrance_activations := c.acts },
     event_log := c.log }, c.pressure)

/-- `MeditationEngine._update_stability_clarity(pressure)`. -/
def tickAxes (e : Engine) (press : List (Hid × ℚ)) : Engine :=
  let bs := calcBaseStability e.seeds e.particular
  let bc := calcBaseClarity e.seeds e.particular
  let s0 := e.state.stability + (bs - e.state.stability) * 0.05
  let c0 := e.state.clarity + (bc - e.state.clarity) * 0.05
  let sc := e.state.active_hindrances.foldl
    (fun (sc : ℚ × ℚ) (p : Hid × ℚ) =>
      (sc.1 - stabilityDamage p.1 * p.2 * 0.1,
       sc.2 - clarityDamage p.1 * p.2 * 0.1))
    (s0, c0)
  let s1 := sc.1 - ((press.lookup Hid.restlessness).getD 0) * 0.05
  let c1 := sc.2 - ((press.lookup Hid.sloth_torpor).getD 0) * 0.05
  { e with state := { e.state with
      stability := max 0.1 (min 0.95 s1),
      clarity := max 0.1 (min 0.95 c1) } }

/-- The event-name strings appended to the `events` list by
`_check_state_changes`. -/
def wanderEvent : String := "走神"

/-- Event name for a dullness onset. -/
def dullEvent : String := "惛沉"

/-- Event name for a restlessness onset. -/
def restlessEvent : String := "掉举"

/-- `MeditationEngine._check_state_changes`.  `wb` is the Boolean outcome of
the one `random.random() < wander_prob` draw (consumed only while on-object);
`wander_prob` itself is `sigmoid(-2*stability + restlessness_seed - smrti) * 0.05`,
whose value never feeds into the state other than through this comparison. -/
def tickEvents (e : Engine) (wb : Bool) : Engine × List String :=
  let wander := e.state.on_object && wb
  let st1 := if wander then
               { e.state with on_object := false, is_wandering := true }
             else e.state
  let ws1 := if wander then e.elapsed_seconds else e.wander_start_time
  let stats1 := if wander then
                  { e.stats with wander_count := e.stats.wander_count + 1 }
                else e.stats
  let log1 := if wander then e.event_log ++ [(e.elapsed_seconds, Msg.wanderOff)]
              else e.event_log
  let ev1 : List String := if wander then [wanderEvent] else []
  let old_dull := st1.is_dull
  let newDull := decide (st1.clarity < (0.4 : ℚ))
  let st2 := { st1 with is_dull := newDull }
  let dullEdge := newDull && !old_dull
  let stats2 := if dullEdge then
                  { stats1 with dull_episodes := stats1.dull_episodes + 1 }
                else stats1
  let ev2 := if dullEdge then ev1 ++ [dullEvent] else ev1
  let log2 := if dullEdge then log1 ++ [(e.elapsed_seconds, Msg.dullArise)] else log1
  let old_restless := st2.is_restless
  let newRestless := decide (st2.stability < (0.4 : ℚ))
  let st3 := { st2 with is_restless := newRestless }
  let rEdge := newRestless && !old_restless
  let stats3 := if rEdge then
                  { stats2 with restless_episodes := stats2.restless_episodes + 1 }
                else stats2
  let ev3 := if rEdge then ev2 ++ [restlessEvent] else ev2
  let log3 := if rEdge then log2 ++ [(e.elapsed_seconds, Msg.restlessArise)] else log2
  let osc1 : ℕ := if old_dull && newRestless then 1 else 0
  let osc2 : ℕ := if old_restless && newDull then 1 else 0
  let stats4 := { stats3 with
                  oscillation_count := stats3.oscillation_count + osc1 + osc2 }
  ({ e with state := st3, stats := stats4, event_log := log3,
            wander_start_time := ws1 }, ev3)

/-- `MeditationEngine._update_stats`. -/
def tickStats (e : Engine) : Engine :=
  let stats1 := if e.state.on_object then
                  { e.stats with on_object_time := e.stats.on_object_time + 1 }
                else e.stats
  let stats2 := if 0.5 < e.state.clarity then
                  { stats1 with clarity_time := stats1.clarity_time + 1 }
                else stats1
  let st1 := if e.state.on_object then e.state
             else { e.state with
                    wandering_duration :=
                      (e.elapsed_seconds : ℚ) - (e.wander_start_time : ℚ) }
  { e with stats := stats2, state := st1 }

/-- The dict returned by `MeditationEngine.tick`. -/
structure TickResult where
  elapsed : ℕ
  stability : ℚ
  clarity : ℚ
  on_object : Bool
  is_dull : Bool
  is_restless : Bool
  events : List String
  active_hindrances : List Hid
deriving DecidableEq, Repr, Inhabited

/-- Body of `MeditationEngine.tick` after the `elapsed_seconds` increment:
pressure phase, axis update, event detection, statistics accrual, and the
returned dict. -/
def tickCore (e0 : Engine) (pr : ℕ → ℚ) (wb : Bool) : Engine × TickResult :=
  let p1 := tickPressure e0 pr
  let e2 := tickAxes p1.1 p1.2
  let p3 := tickEvents e2 wb
  let e4 := tickStats p3.1
  (e4,
    { elapsed := e4.elapsed_seconds, stability := e4.state.stability,
      clarity := e4.state.clarity, on_object := e4.state.on_object,
      is_dull := e4.state.is_dull, is_restless := e4.state.is_restless,
      events := p3.2,
      active_hindrances := e4.state.active_hindrances.map Prod.fst })

/-- `MeditationEngine.tick`.  `pr` supplies the values of the successive
`random.random()` calls of the pressure phase; `wb` the outcome of the
wandering draw.  When `session_duration = 0`, the fatigue-factor division
raises `ZeroDivisionError` on the first loop iteration: the error carries the
engine as the exception leaves it (`elapsed_seconds` already incremented,
nothing else mutated yet). -/
def tick (e : Engine) (pr : ℕ → ℚ) (wb : Bool) : Except Engine (Engine × TickResult) :=
  let e0 := { e with elapsed_seconds := e.elapsed_seconds + 1 }
  if e0.session_duration = 0 then
    .error e0
  else
    .ok (tickCore e0 pr wb)

/-- Seed-change dict keys used by `player_notice`. -/
def mindfulnessKey : String := "mindfulness"

/-- Seed-change dict key for the diligence seed. -/
def diligenceKey : String := "diligence"

/-- Seed-change dict key for the restlessness seed. -/
def restlessnessKey : String := "restlessness"

/-- The dict returned by `MeditationEngine.player_notice`. -/
structure NoticeResult where
  noticed : Bool
  latency : ℚ
  seed_changes : List (String × ℚ)
deriving DecidableEq, Repr

/-- `MeditationEngine.player_notice`.  The Python applies the seed-change dict
with `self.seeds[k] = max(0, min(1, self.seeds.get(k, 0.5) + delta))`;
element-wise over the two-entry dicts that equals the field updates below. -/
def player_notice (e : Engine) : Engine × NoticeResult :=
  if e.state.on_object then
    (e, { noticed := false, latency := 0, seed_changes := [] })
  else
    let lat := e.state.wandering_duration
    let changes : List (String × ℚ) :=
      if lat < 3 then [(mindfulnessKey, 0.02), (diligenceKey, 0.01)]
      else if lat < 7 then [(mindfulnessKey, 0.01)]
      else [(mindfulnessKey, -0.005), (restlessnessKey, 0.005)]
    let se := e.seeds
    let se :=
      if lat < 3 then
        { se with mindfulness := clamp01 (se.mindfulness + 0.02),
                  diligence := clamp01 (se.diligence + 0.01) }
      else if lat < 7 then
        { se with mindfulness := clamp01 (se.mindfulness + 0.01) }
      else
        { se with mindfulness := clamp01 (se.mindfulness - 0.005),
                  restlessness := clamp01 (se.restlessness + 0.005) }
    ({ e with
       seeds := se,
       state := { e.state with noticing_latency := lat },
       stats := { e.stats with
                  noticing_latencies := e.stats.noticing_latencies ++ [lat] },
       event_log := e.event_log ++ [(e.elapsed_seconds, Msg.noticed lat)] },
     { noticed := true, latency := lat, seed_changes := changes })

/-- The dict returned by `MeditationEngine.player_return`. -/
structure ReturnResult where
  returned : Bool
  recovery_time : ℚ
deriving DecidableEq, Repr

/-- `MeditationEngine.player_return`.  Note the `+ 0.05` stability bonus is
applied with no clamp. -/
def player_return (e : Engine) : Engine × ReturnResult :=
  if e.state.on_object then
    (e, { returned := false, recovery_time := 0 })
  else
    let rt := e.state.wandering_duration
    ({ e with
       state := { e.state with
                  on_object := true, is_wandering := false,
                  wandering_duration := 0,
                  stability := e.state.stability + 0.05,
                  active_hindrances := [] },
       stats := { e.stats with
                  recovery_times := e.stats.recovery_times ++ [rt],
                  return_count := e.stats.return_count + 1 },
       event_log := e.event_log ++ [(e.elapsed_seconds, Msg.returned rt)] },
     { returned := true, recovery_time := rt })

/-- The dict returned by `MeditationEngine.player_adjust`. -/
structure AdjustResult where
  adjusted : Bool
  effect : String
deriving DecidableEq, Repr

/-- Action string accepted by `player_adjust`. -/
def raiseAction : String := "raise"

/-- Action string accepted by `player_adjust`. -/
def relaxAction : String := "relax"

/-- Effect text for an effective `raise`. -/
def raiseEffect : String := "明晰度提升"

/-- Effect text for a `raise` that pushed stability below 0.4
(the Python builds it by string concatenation). -/
def raiseOverEffect : String := "明晰度提升，但稳定度下降"

/-- Effect text for a `raise` issued while not dull. -/
def raiseNoNeed : String := "当前不需要提起"

/-- Effect text for an effective `relax`. -/
def relaxEffect : String := "稳定度提升"

/-- Effect text for a `relax` that pushed clarity below 0.4. -/
def relaxOverEffect : String := "稳定度提升，但明晰度下降"

/-- Effect text for a `relax` issued while not restless. -/
def relaxNoNeed : String := "当前不需要放松"

/-- `MeditationEngine.player_adjust(action)`.  `adjusted` is `True` on every
path; the axis deltas are applied with no clamp; the seed nudges use
`min(1, ...)` with no lower clamp. -/
def player_adjust (e : Engine) (action : String) : Engine × AdjustResult :=
  if action = raiseAction then
    if e.state.is_dull then
      let st := { e.state with clarity := e.state.clarity + 0.1,
                               stability := e.state.stability - 0.03 }
      if st.stability < 0.4 then
        ({ e with state := st,
                  seeds := { e.seeds with
                             restlessness := min 1 (e.seeds.restlessness + 0.01) } },
         { adjusted := true, effect := raiseOverEffect })
      else
        ({ e with state := st }, { adjusted := true, effect := raiseEffect })
    else
      (e, { adjusted := true, effect := raiseNoNeed })
  else if action = relaxAction then
    if e.state.is_restless then
      let st := { e.state with stability := e.state.stability + 0.1,
                               clarity := e.state.clarity - 0.03 }
      if st.clarity < 0.4 then
        ({ e with state := st,
                  seeds := { e.seeds with
                             sloth_torpor := min 1 (e.seeds.sloth_torpor + 0.01) } },
         { adjusted := true, effect := relaxOverEffect })
      else
        ({ e with state := st }, { adjusted := true, effect := relaxEffect })
    else
      (e, { adjusted := true, effect := relaxNoNeed })
  else
    (e, { adjusted := true, effect := "" })

/-- The nine stages (`NineStages`), in enum order. -/
inductive Stage
  | inner_abiding
  | continuous_abiding
  | restorative_abiding
  | close_abiding
  | taming
  | pacifying
  | fully_pacifying
  | single_pointed
  | equipoise
deriving DecidableEq, Repr

/-- Iteration order of `for stage in NineStages`. -/
def stageOrder : List Stage :=
  [.inner_abiding, .continuous_abiding, .restorative_abiding, .close_abiding,
   .taming, .pacifying, .fully_pacifying, .single_pointed, .equipoise]

/-- The threshold keys appearing in `STAGE_THRESHOLDS`. -/
inductive GateKey
  | on_object_ratio
  | min_continuous_seconds
  | avg_recovery_time
  | avg_noticing_latency
  | max_oscillation
  | restless_episodes
  | clarity_ratio
  | oscillation_count
deriving DecidableEq, Repr

/-- `STAGE_THRESHOLDS` (lines 161-200). -/
def stageThresholds : Stage → List (GateKey × ℚ)
  | .inner_abiding => [(.on_object_ratio, 0.30), (.min_continuous_seconds, 10)]
  | .continuous_abiding => [(.on_object_ratio, 0.40), (.avg_recovery_time, 8.0)]
  | .restorative_abiding => [(.on_object_ratio, 0.50), (.avg_noticing_latency, 10.0)]
  | .close_abiding => [(.on_object_ratio, 0.60), (.avg_noticing_latency, 7.0)]
  | .taming => [(.on_object_ratio, 0.65), (.max_oscillation, 5), (.restless_episodes, 3)]
  | .pacifying => [(.on_object_ratio, 0.70), (.clarity_ratio, 0.60)]
  | .fully_pacifying => [(.on_object_ratio, 0.75), (.avg_noticing_latency, 3.0)]
  | .single_pointed => [(.on_object_ratio, 0.85), (.clarity_ratio, 0.80)]
  | .equipoise => [(.on_object_ratio, 0.90), (.clarity_ratio, 0.85), (.oscillation_count, 2)]

/-- The `if/elif` chain in the inner loop of `_determine_stage` (lines
632-650): whether one `(key, threshold)` pair sets `passed = False`.  The key
`min_continuous_seconds` matches no branch of the chain, so it can never fail
(and indeed `SessionStats` tracks no continuous-seconds statistic at all). -/
def gateFails (s : SessStats) (k : GateKey) (t : ℚ) : Bool :=
  match k with
  | .on_object_ratio => decide (s.on_object_ratio < t)
  | .clarity_ratio => decide (s.clarity_ratio < t)
  | .avg_noticing_latency => decide (t < s.avg_noticing_latency)
  | .avg_recovery_time => decide (t < s.avg_recovery_time)
  | .max_oscillation => decide (t < (s.oscillation_count : ℚ))
  | .oscillation_count => decide (t < (s.oscillation_count : ℚ))
  | .restless_episodes => decide (t < (s.restless_episodes : ℚ))
  | .min_continuous_seconds => false

/-- Whether a stage's `passed` flag remains `True` after its threshold loop. -/
def stagePass (s : SessStats) (st : Stage) : Bool :=
  (stageThresholds st).all fun p => !gateFails s p.1 p.2

/-- The `for stage in NineStages` loop of `_determine_stage`, with `achieved`
as accumulator; the `else: break` stops at the first failing stage. -/
def determineStageAux (s : SessStats) : List Stage → Option Stage → Option Stage
  | [], achieved => achieved
  | st :: rest, achieved =>
    if stagePass s st then determineStageAux s rest (some st) else achieved

/-- `MeditationEngine._determine_stage` over final statistics. -/
def determineStage (s : SessStats) : Option Stage :=
  determineStageAux s stageOrder none

/-- Second definition, written from the specification's words (claim C2):
"the awarded rank is the highest k such that ranks 1..k are all satisfied in
order" — i.e. the last stage of the longest all-passing prefix of the ladder. -/
def specCumulativeStage (s : SessStats) : Option Stage :=
  (stageOrder.takeWhile fun st => stagePass s st).getLast?

/-- `n` successive `player_notice()` calls (discarding the returned dicts). -/
def noticeN : ℕ → Engine → Engine
  | 0, e => e
  | n + 1, e => noticeN n (player_notice e).1

/-- The logistic function `MeditationEngine._sigmoid` (over the reals; the
Python computes it in floating point via `math.exp`). -/
noncomputable def sigmoid (x : ℝ) : ℝ := 1 / (1 + Real.exp (-x))

/-- States reachable from a freshly started engine by the public operations.
The tick constructor only steps on a normal (non-raising) tick. -/
inductive Reach : Engine → Prop
  | start (se : Seeds) (pa : Particular) (m : ℤ) :
      Reach (startSession (mkEngine se pa) m)
  | tick (e e' : Engine) (r : TickResult) (pr : ℕ → ℚ) (wb : Bool) :
      Reach e → tick e pr wb = .ok (e', r) → Reach e'
  | notice (e : Engine) : Reach e → Reach (player_notice e).1
  | ret (e : Engine) : Reach e → Reach (player_return e).1
  | adjust (e : Engine) (a : String) : Reach e → Reach (player_adjust e a).1

/-- The wandering-bookkeeping invariant maintained by all operations. -/
def WanderInv (e : Engine) : Prop :=
  (e.state.on_object = true → e.state.wandering_duration = 0) ∧
  (e.state.on_object = false →
    e.state.wandering_duration =
      (e.elapsed_seconds : ℚ) - (e.wander_start_time : ℚ))

/-! Concrete inputs used by the counterexamples and witnesses below. -/

/-- A seed bank with every seed 0 (callers may pass any values). -/
def zeroHSeeds : Seeds := ⟨0, 0, 0, 0, 0, 0, 0, 0, 0, 0⟩

/-- A faculty map with every faculty 0. -/
def zeroParticular : Particular := ⟨0, 0, 0, 0, 0⟩

/-- A draw stream on which every activation test fails. -/
def prHigh : ℕ → ℚ := fun _ => 0.99

/-- A freshly started 10-minute session over all-zero stores. -/
def c1Start : Engine := startSession (mkEngine zeroHSeeds zeroParticular) 10

/-- An engine whose configured duration (60 s) has fully elapsed. -/
def c4E : Engine :=
  { mkEngine defaultSeeds defaultParticular with
    elapsed_seconds := 60, session_duration := 60 }

/-- A session started with `duration_minutes = 0`. -/
def c4Zero : Engine := startSession (mkEngine defaultSeeds defaultParticular) 0

/-- Seed bank with a maximal sloth-torpor seed. -/
def c5Seeds : Seeds := ⟨1, 0, 0, 0, 0, 0, 0, 0, 0, 0⟩

/-- Mid-session engine (fatigue factor 1/2 on the next tick). -/
def c5E : Engine :=
  { mkEngine c5Seeds zeroParticular with
    elapsed_seconds := 299, session_duration := 600 }

/-- Draw stream whose first draw is 0.105: above the clamped-pressure
activation threshold 0.1, below the raw-base threshold 0.11. -/
def c5Pr : ℕ → ℚ := fun _ => 0.105

/-- Final statistics that fail rank 3 (latency 11 > 10) but would pass
rank 5 in isolation. -/
def c2Stats : SessStats :=
  { initStats with
    on_object_ratio := 0.7, clarity_ratio := 0.9,
    avg_noticing_latency := 11, avg_recovery_time := 1 }

/-- Final statistics with on-object ratio exactly 0.30 and every other
statistic zero. -/
def c3Stats : SessStats := { initStats with on_object_ratio := 0.3 }

/-- An off-object engine with the given wandering duration and defaults
everywhere else. -/
def offEngine (wd : ℚ) : Engine :=
  { mkEngine defaultSeeds defaultParticular with
    state := { initState with on_object := false, wandering_duration := wd } }

/-! Intermediate values of the concrete traces (verified step by step in the
counterexample proofs). -/

/-- `c1Start` entering its first tick (elapsed already incremented). -/
def c1E0 : Engine :=
  ⟨zeroHSeeds, zeroParticular,
   { initState with stability := 1/10, clarity := 3/10 },
   { initStats with duration_seconds := 600 },
   1, 600, [(0, Msg.start)], true, 0⟩

/-- Pressure dict of `c1E0`'s tick. -/
def c1Press : List (Hid × ℚ) :=
  [(.sensual_desire, 0), (.ill_will, 0), (.sloth_torpor, 1/3000),
   (.restlessness, 599/6000), (.doubt, 0)]

/-- `c1E0` after the axis update. -/
def c1E2 : Engine :=
  { c1E0 with
    state := { c1E0.state with stability := 1/10, clarity := 17999/60000 } }

/-- `c1E2` after event detection (dull and restless onsets fire). -/
def c1E3 : Engine :=
  { c1E2 with
    state := { c1E2.state with is_dull := true, is_restless := true },
    stats := { c1E2.stats with dull_episodes := 1, restless_episodes := 1 },
    event_log := [(0, Msg.start), (1, Msg.dullArise), (1, Msg.restlessArise)] }

/-- `c1E3` after statistics accrual (the end of the tick). -/
def c1E4 : Engine :=
  { c1E3 with stats := { c1E3.stats with on_object_time := 1 } }

/-- The tick-result dict of `c1Start`'s first tick. -/
def c1R : TickResult :=
  ⟨1, 1/10, 17999/60000, true, true, true, [dullEvent, restlessEvent], []⟩

/-- `c4E` entering its 61st tick. -/
def c4E0 : Engine :=
  ⟨defaultSeeds, defaultParticular, initState, initStats, 61, 60, [], true, 0⟩

/-- Pressure dict of `c4E0`'s tick (fatigue factor saturated at 1). -/
def c4Press : List (Hid × ℚ) :=
  [(.sensual_desire, 2/5), (.ill_will, 2/5), (.sloth_torpor, 3/5),
   (.restlessness, 2/5), (.doubt, 2/5)]

/-- `c4E0` after the axis update (event detection then changes nothing). -/
def c4E2 : Engine :=
  { c4E0 with
    state := { initState with stability := 191/400, clarity := 47/100 } }

/-- `c4E2` after statistics accrual. -/
def c4E4 : Engine :=
  { c4E2 with stats := { initStats with on_object_time := 1 } }

/-- The tick-result dict of `c4E`'s 61st tick: shaped exactly like any
normal tick result. -/
def c4R : TickResult :=
  ⟨61, 191/400, 47/100, true, false, false, [], []⟩

/-- `c5E` entering its 300th tick. -/
def c5E0 : Engine :=
  ⟨c5Seeds, zeroParticular, initState, initStats, 300, 600, [], true, 0⟩

/-- Pressure dict of `c5E0`'s tick: the sloth-torpor entry is clamped to 1
even though its raw base is 11/10. -/
def c5Press : List (Hid × ℚ) :=
  [(.sensual_desire, 0), (.ill_will, 0), (.sloth_torpor, 1),
   (.restlessness, 1/20), (.doubt, 0)]

/-- `c5E0` after the pressure phase: sloth-torpor activates with the raw
base 11/10 recorded as strength. -/
def c5E1 : Engine :=
  { c5E0 with
    state := { initState with active_hindrances := [(Hid.sloth_torpor, 11/10)] },
    stats := { initStats with hindrance_activations := [(Hid.sloth_torpor, 1)] },
    event_log := [(300, Msg.hindranceArise Hid.sloth_torpor)] }

/-- `c5E1` after the axis update. -/
def c5E2 : Engine :=
  { c5E1 with
    state := { c5E1.state with stability := 933/2000, clarity := 3/8 } }

/-- `c5E2` after event detection (dullness onset fires). -/
def c5E3 : Engine :=
  { c5E2 with
    state := { c5E2.state with is_dull := true },
    stats := { c5E2.stats with dull_episodes := 1 },
    event_log := c5E2.event_log ++ [(300, Msg.dullArise)] }

/-- `c5E3` after statistics accrual. -/
def c5E4 : Engine :=
  { c5E3 with stats := { c5E3.stats with on_object_time := 1 } }

/-- The tick-result dict of `c5E`'s 300th tick. -/
def c5R : TickResult :=
  ⟨300, 933/2000, 3/8, true, true, false, [dullEvent], [Hid.sloth_torpor]⟩

end Dharma

namespace Dharma

/-! Helper lemmas (shared infrastructure; not claim theorems). -/

/-- The wandering probability `sigmoid(x) * 0.05` lies strictly between 0 and
1, so both outcomes of the wandering draw are realizable at every state; this
justifies supplying the draw's outcome as the oracle bit `wb` of `tick`. -/
lemma sigmoid_prob_mem_Ioo (x : ℝ) : 0 < sigmoid x * 0.05 ∧ sigmoid x * 0.05 < 1 := by
  have hx : 0 < Real.exp (-x) := Real.exp_pos _
  have h0 : 0 < sigmoid x := by
    unfold sigmoid
    positivity
  have h1 : sigmoid x < 1 := by
    unfold sigmoid
    rw [div_lt_one (by linarith)]
    linarith
  constructor
  · positivity
  · nlinarith

/-- A tick on a non-zero-duration engine returns `ok` of the core body. -/
lemma tick_eq_ok (e : Engine) (pr : ℕ → ℚ) (wb : Bool)
    (h : e.session_duration ≠ 0) :
    tick e pr wb =
      .ok (tickCore { e with elapsed_seconds := e.elapsed_seconds + 1 } pr wb) := by
  simp only [tick]
  rw [if_neg h]

/-- A tick on a zero-duration engine raises `ZeroDivisionError` with
`elapsed_seconds` already incremented. -/
lemma tick_eq_error (e : Engine) (pr : ℕ → ℚ) (wb : Bool)
    (h : e.session_duration = 0) :
    tick e pr wb = .error { e with elapsed_seconds := e.elapsed_seconds + 1 } := by
  simp only [tick]
  rw [if_pos h]

/-- Pressure-loop iteration when the raw base does not exceed 0.6: only the
pressure dict grows, no draw is consumed. -/
lemma hindranceStep_low {se : Seeds} {pa : Particular} {elapsed : ℕ} {dur : ℤ}
    {pr : ℕ → ℚ} {c : PressCtx} {h : Hid} {b : ℚ}
    (hb : hindranceBase se pa (fatigueFactor elapsed dur) h = b)
    (hle : ¬ (0.6 : ℚ) < b) :
    hindranceStep se pa elapsed dur pr c h =
      { c with pressure := c.pressure ++ [(h, clamp01 b)] } := by
  simp only [hindranceStep, hb, hle, if_false, ite_false]

/-- Pressure-loop iteration when the base exceeds 0.6 but the consumed draw
fails the `draw < base * 0.1` test. -/
lemma hindranceStep_drawFail {se : Seeds} {pa : Particular} {elapsed : ℕ} {dur : ℤ}
    {pr : ℕ → ℚ} {c : PressCtx} {h : Hid} {b : ℚ}
    (hb : hindranceBase se pa (fatigueFactor elapsed dur) h = b)
    (hgt : (0.6 : ℚ) < b) (hfail : ¬ pr c.k < b * 0.1) :
    hindranceStep se pa elapsed dur pr c h =
      { c with pressure := c.pressure ++ [(h, clamp01 b)], k := c.k + 1 } := by
  simp only [hindranceStep, hb, hgt, if_true, ite_true, hfail, if_false, ite_false]

/-- Pressure-loop iteration that activates the hindrance: base above 0.6,
draw succeeds, hindrance not yet active. -/
lemma hindranceStep_activate {se : Seeds} {pa : Particular} {elapsed : ℕ} {dur : ℤ}
    {pr : ℕ → ℚ} {c : PressCtx} {h : Hid} {b : ℚ}
    (hb : hindranceBase se pa (fatigueFactor elapsed dur) h = b)
    (hgt : (0.6 : ℚ) < b) (hhit : pr c.k < b * 0.1)
    (hnew : (c.active.lookup h).isNone) :
    hindranceStep se pa elapsed dur pr c h =
      { c with pressure := c.pressure ++ [(h, clamp01 b)],
               active := c.active ++ [(h, b)],
               acts := setN c.acts h (getN c.acts h + 1),
               log := c.log ++ [(elapsed, Msg.hindranceArise h)],
               k := c.k + 1 } := by
  simp only [hindranceStep, hb, hgt, if_true, ite_true, hhit, hnew]

/-- Pressure-loop iteration when the base exceeds 0.6 and the draw succeeds
but the hindrance is already active: a draw is still consumed, nothing else
changes beyond the pressure dict. -/
lemma hindranceStep_already {se : Seeds} {pa : Particular} {elapsed : ℕ} {dur : ℤ}
    {pr : ℕ → ℚ} {c : PressCtx} {h : Hid} {b : ℚ}
    (hb : hindranceBase se pa (fatigueFactor elapsed dur) h = b)
    (hgt : (0.6 : ℚ) < b) (hhit : pr c.k < b * 0.1)
    (hold : ¬ (c.active.lookup h).isNone = true) :
    hindranceStep se pa elapsed dur pr c h =
      { c with pressure := c.pressure ++ [(h, clamp01 b)], k := c.k + 1 } := by
  simp only [hindranceStep, hb, hgt, if_true, ite_true, hhit]
  rw [if_neg hold]

/-- The pressure phase never touches the axes, the on-object flag, the
wandering bookkeeping, the elapsed time or the configured duration. -/
lemma tickPressure_preserves (e : Engine) (pr : ℕ → ℚ) :
    ((tickPressure e pr).1).state.stability = e.state.stability ∧
    ((tickPressure e pr).1).state.clarity = e.state.clarity ∧
    ((tickPressure e pr).1).state.on_object = e.state.on_object ∧
    ((tickPressure e pr).1).state.wandering_duration = e.state.wandering_duration ∧
    ((tickPressure e pr).1).state.is_dull = e.state.is_dull ∧
    ((tickPressure e pr).1).state.is_restless = e.state.is_restless ∧
    ((tickPressure e pr).1).wander_start_time = e.wander_start_time ∧
    ((tickPressure e pr).1).elapsed_seconds = e.elapsed_seconds ∧
    ((tickPressure e pr).1).session_duration = e.session_duration := by
  refine ⟨rfl, rfl, rfl, rfl, rfl, rfl, rfl, rfl, rfl⟩

/-- The axis update writes the two clamped axes and touches nothing else. -/
lemma tickAxes_preserves (e : Engine) (press : List (Hid × ℚ)) :
    (tickAxes e press).state.on_object = e.state.on_object ∧
    (tickAxes e press).state.wandering_duration = e.state.wandering_duration ∧
    (tickAxes e press).state.is_dull = e.state.is_dull ∧
    (tickAxes e press).state.is_restless = e.state.is_restless ∧
    (tickAxes e press).wander_start_time = e.wander_start_time ∧
    (tickAxes e press).elapsed_seconds = e.elapsed_seconds := by
  refine ⟨rfl, rfl, rfl, rfl, rfl, rfl⟩

/-- After the axis update both axes sit inside the `[0.1, 0.95]` clamp. -/
lemma tickAxes_bounds (e : Engine) (press : List (Hid × ℚ)) :
    ((0.1 : ℚ) ≤ (tickAxes e press).state.stability ∧
      (tickAxes e press).state.stability ≤ 0.95) ∧
    ((0.1 : ℚ) ≤ (tickAxes e press).state.clarity ∧
      (tickAxes e press).state.clarity ≤ 0.95) := by
  dsimp only [tickAxes]
  refine ⟨⟨le_max_left _ _, max_le (by norm_num) (min_le_left _ _)⟩,
          ⟨le_max_left _ _, max_le (by norm_num) (min_le_left _ _)⟩⟩

/-- Event detection never changes the axes, the wandering duration, the
elapsed time or the duration. -/
lemma tickEvents_preserves (e : Engine) (wb : Bool) :
    ((tickEvents e wb).1).state.stability = e.state.stability ∧
    ((tickEvents e wb).1).state.clarity = e.state.clarity ∧
    ((tickEvents e wb).1).state.wandering_duration = e.state.wandering_duration ∧
    ((tickEvents e wb).1).elapsed_seconds = e.elapsed_seconds ∧
    ((tickEvents e wb).1).session_duration = e.session_duration := by
  dsimp only [tickEvents]
  split <;> refine ⟨rfl, rfl, rfl, rfl, rfl⟩

/-- Event detection while off-object: the wandering branch cannot fire, so
the on-object flag and the wander-start clock are untouched. -/
lemma tickEvents_off (e : Engine) (wb : Bool) (h : e.state.on_object = false) :
    ((tickEvents e wb).1).state.on_object = false ∧
    ((tickEvents e wb).1).wander_start_time = e.wander_start_time := by
  simp [tickEvents, h]

/-- Event detection while on-object: the draw outcome decides whether the
attention leaves the object, and where the wander clock is set. -/
lemma tickEvents_on (e : Engine) (wb : Bool) (h : e.state.on_object = true) :
    ((tickEvents e wb).1).state.on_object = !wb ∧
    ((tickEvents e wb).1).wander_start_time =
      (if wb then e.elapsed_seconds else e.wander_start_time) := by
  cases wb <;> simp [tickEvents, h]

/-- Statistics accrual never changes the axes, the flags, the wander-start
clock, the elapsed time or the duration. -/
lemma tickStats_preserves (e : Engine) :
    (tickStats e).state.stability = e.state.stability ∧
    (tickStats e).state.clarity = e.state.clarity ∧
    (tickStats e).state.on_object = e.state.on_object ∧
    (tickStats e).state.is_dull = e.state.is_dull ∧
    (tickStats e).state.is_restless = e.state.is_restless ∧
    (tickStats e).wander_start_time = e.wander_start_time ∧
    (tickStats e).elapsed_seconds = e.elapsed_seconds ∧
    (tickStats e).session_duration = e.session_duration := by
  dsimp only [tickStats]
  split <;> refine ⟨rfl, rfl, rfl, rfl, rfl, rfl, rfl, rfl⟩

/-- Statistics accrual recomputes the wandering duration while off-object
and leaves it alone while on-object. -/
lemma tickStats_wd (e : Engine) :
    (tickStats e).state.wandering_duration =
      (if e.state.on_object then e.state.wandering_duration
       else (e.elapsed_seconds : ℚ) - (e.wander_start_time : ℚ)) := by
  dsimp only [tickStats]
  split <;> rfl

/-- `player_notice` while on-object is the identity on the engine. -/
lemma notice_on (e : Engine) (h : e.state.on_object = true) :
    player_notice e = (e, { noticed := false, latency := 0, seed_changes := [] }) := by
  simp [player_notice, h]

/-- `player_notice` while off-object, fully expanded. -/
lemma notice_off (e : Engine) (h : e.state.on_object = false) :
    player_notice e =
      ({ e with
         seeds :=
           if e.state.wandering_duration < 3 then
             { e.seeds with mindfulness := clamp01 (e.seeds.mindfulness + 0.02),
                            diligence := clamp01 (e.seeds.diligence + 0.01) }
           else if e.state.wandering_duration < 7 then
             { e.seeds with mindfulness := clamp01 (e.seeds.mindfulness + 0.01) }
           else
             { e.seeds with mindfulness := clamp01 (e.seeds.mindfulness - 0.005),
                            restlessness := clamp01 (e.seeds.restlessness + 0.005) },
         state := { e.state with noticing_latency := e.state.wandering_duration },
         stats := { e.stats with
                    noticing_latencies :=
                      e.stats.noticing_latencies ++ [e.state.wandering_duration] },
         event_log :=
           e.event_log ++ [(e.elapsed_seconds, Msg.noticed e.state.wandering_duration)] },
       { noticed := true, latency := e.state.wandering_duration,
         seed_changes :=
           if e.state.wandering_duration < 3 then
             [(mindfulnessKey, 0.02), (diligenceKey, 0.01)]
           else if e.state.wandering_duration < 7 then [(mindfulnessKey, 0.01)]
           else [(mindfulnessKey, -0.005), (restlessnessKey, 0.005)] }) := by
  simp only [player_notice, h, Bool.false_eq_true, if_false, ite_false]

/-- `player_return` while on-object is the identity on the engine. -/
lemma return_on (e : Engine) (h : e.state.on_object = true) :
    player_return e = (e, { returned := false, recovery_time := 0 }) := by
  simp [player_return, h]

/-- `player_return` while off-object, fully expanded. -/
lemma return_off (e : Engine) (h : e.state.on_object = false) :
    player_return e =
      ({ e with
         state := { e.state with
                    on_object := true, is_wandering := false,
                    wandering_duration := 0,
                    stability := e.state.stability + 0.05,
                    active_hindrances := [] },
         stats := { e.stats with
                    recovery_times :=
                      e.stats.recovery_times ++ [e.state.wandering_duration],
                    return_count := e.stats.return_count + 1 },
         event_log :=
           e.event_log ++
             [(e.elapsed_seconds, Msg.returned e.state.wandering_duration)] },
       { returned := true, recovery_time := e.state.wandering_duration }) := by
  simp only [player_return, h, Bool.false_eq_true, if_false, ite_false]

/-- `player_adjust` never changes the on-object flag, the wandering
bookkeeping, the elapsed time or the configured duration. -/
lemma adjust_preserves (e : Engine) (a : String) :
    ((player_adjust e a).1).state.on_object = e.state.on_object ∧
    ((player_adjust e a).1).state.wandering_duration = e.state.wandering_duration ∧
    ((player_adjust e a).1).wander_start_time = e.wander_start_time ∧
    ((player_adjust e a).1).elapsed_seconds = e.elapsed_seconds ∧
    ((player_adjust e a).1).session_duration = e.session_duration := by
  dsimp only [player_adjust]
  split_ifs <;> refine ⟨rfl, rfl, rfl, rfl, rfl⟩

/-- `getLast?` of a cons, expressed through `getD`. -/
lemma getLast_opt_cons (l : List Stage) (a : Stage) :
    (a :: l).getLast? = some (l.getLast?.getD a) := by
  induction l generalizing a with
  | nil => rfl
  | cons b t ih =>
    rw [List.getLast?_cons_cons, ih b]
    simp [ih b]

/-- The stage loop with accumulator equals the last element of the
all-passing prefix, defaulting to the accumulator. -/
lemma determineStageAux_eq (s : SessStats) :
    ∀ (l : List Stage) (acc : Option Stage),
      determineStageAux s l acc =
        match (l.takeWhile fun st => stagePass s st).getLast? with
        | none => acc
        | some x => some x := by
  intro l
  induction l with
  | nil => intro acc; rfl
  | cons a t ih =>
    intro acc
    by_cases h : stagePass s a
    · rw [determineStageAux, if_pos h, ih, List.takeWhile_cons_of_pos h,
          getLast_opt_cons]
      cases ht : (t.takeWhile fun st => stagePass s st).getLast? <;> simp [ht]
    · rw [determineStageAux, if_neg h, List.takeWhile_cons_of_neg h]
      rfl

/-- `_determine_stage` implements exactly the specification's cumulative
ladder: the awarded rank is the last stage of the longest all-passing prefix
of the nine-rank ladder. -/
lemma determineStage_eq_spec (s : SessStats) :
    determineStage s = specCumulativeStage s := by
  rw [determineStage, determineStageAux_eq, specCumulativeStage]
  cases h : (stageOrder.takeWhile fun st => stagePass s st).getLast? <;> simp [h]

/-- A fresh session satisfies the wandering invariant. -/
lemma wanderInv_start (se : Seeds) (pa : Particular) (m : ℤ) :
    WanderInv (startSession (mkEngine se pa) m) := by
  constructor
  · intro _; rfl
  · intro hfalse
    exact absurd hfalse (by simp [startSession, mkEngine, initState])

/-- A successful tick preserves the wandering invariant. -/
lemma wanderInv_tick (e e' : Engine) (r : TickResult) (pr : ℕ → ℚ) (wb : Bool)
    (h : WanderInv e) (hok : tick e pr wb = .ok (e', r)) : WanderInv e' := by
  by_cases hd : e.session_duration = 0
  · rw [tick_eq_error e pr wb hd] at hok
    exact absurd hok (by simp)
  · rw [tick_eq_ok e pr wb hd] at hok
    have hcore := (Except.ok.injEq _ _).mp hok
    have he' : e' =
        tickStats ((tickEvents (tickAxes
          ((tickPressure { e with elapsed_seconds := e.elapsed_seconds + 1 } pr).1)
          ((tickPressure { e with elapsed_seconds := e.elapsed_seconds + 1 } pr).2)) wb).1) := by
      rw [show e' = (tickCore { e with elapsed_seconds := e.elapsed_seconds + 1 } pr wb).1 from by
            rw [hcore]]
      rfl
    set E2 := tickAxes
      ((tickPressure { e with elapsed_seconds := e.elapsed_seconds + 1 } pr).1)
      ((tickPressure { e with elapsed_seconds := e.elapsed_seconds + 1 } pr).2) with hE2
    have hE2on : E2.state.on_object = e.state.on_object := rfl
    have hE2wd : E2.state.wandering_duration = e.state.wandering_duration := rfl
    have hE2ws : E2.wander_start_time = e.wander_start_time := rfl
    have hE2el : E2.elapsed_seconds = e.elapsed_seconds + 1 := rfl
    set E3 := (tickEvents E2 wb).1 with hE3
    have h3pres := tickEvents_preserves E2 wb
    constructor
    · intro hon
      have hon3 : E3.state.on_object = true := by
        rw [he'] at hon
        rw [← (tickStats_preserves E3).2.2.1]
        exact hon
      rw [he', tickStats_wd, hon3, if_pos rfl]
      by_cases hcase : e.state.on_object = true
      · rw [h3pres.2.2.1, hE2wd]
        exact h.1 hcase
      · have hoff : E2.state.on_object = false := by
          rw [hE2on]
          cases hb : e.state.on_object
          · rfl
          · exact absurd hb hcase
        have hoffE3 := (tickEvents_off E2 wb hoff).1
        rw [hE3] at hon3
        rw [hoffE3] at hon3
        exact absurd hon3 (by simp)
    · intro hoff
      have hoff3 : E3.state.on_object = false := by
        rw [he'] at hoff
        rw [← (tickStats_preserves E3).2.2.1]
        exact hoff
      rw [he']
      have hwd := tickStats_wd E3
      rw [hoff3] at hwd
      simp only [Bool.false_eq_true, if_false, ite_false] at hwd
      rw [hwd, (tickStats_preserves E3).2.2.2.2.2.2.1,
          (tickStats_preserves E3).2.2.2.2.2.1]

/-- `player_notice` preserves the wandering invariant. -/
lemma wanderInv_notice (e : Engine) (h : WanderInv e) :
    WanderInv (player_notice e).1 := by
  cases hon : e.state.on_object
  · rw [notice_off e hon]
    constructor
    · intro hcontra
      exact absurd hcontra (by simpa using hon)
    · intro _
      exact h.2 hon
  · rw [notice_on e hon]
    exact h

/-- `player_return` preserves the wandering invariant. -/
lemma wanderInv_return (e : Engine) (h : WanderInv e) :
    WanderInv (player_return e).1 := by
  cases hon : e.state.on_object
  · rw [return_off e hon]
    constructor
    · intro _; rfl
    · intro hcontra
      exact absurd hcontra (by simp)
  · rw [return_on e hon]
    exact h

/-- `player_adjust` preserves the wandering invariant. -/
lemma wanderInv_adjust (e : Engine) (a : String) (h : WanderInv e) :
    WanderInv (player_adjust e a).1 := by
  have hp := adjust_preserves e a
  constructor
  · intro hon
    rw [hp.2.1]
    exact h.1 (by rw [← hp.1]; exact hon)
  · intro hoff
    rw [hp.2.1, hp.2.2.2.1, hp.2.2.1]
    exact h.2 (by rw [← hp.1]; exact hoff)

/-- Every reachable engine state satisfies the wandering invariant. -/
lemma reach_wanderInv (e : Engine) (h : Reach e) : WanderInv e := by
  induction h with
  | start se pa m => exact wanderInv_start se pa m
  | tick e e' r pr wb _ hok ih => exact wanderInv_tick e e' r pr wb ih hok
  | notice e _ ih => exact wanderInv_notice e ih
  | ret e _ ih => exact wanderInv_return e ih
  | adjust e a _ ih => exact wanderInv_adjust e a ih

/-! Claim theorems. -/

/-- C2: stage determination iterates the nine ranks in fixed order and awards
the highest rank k such that ranks 1..k all pass in order, stopping at the
first failing rank without evaluating later ranks; statistics that fail rank
3's gates but would pass rank 5's gates in isolation yield rank 2
(`continuous_abiding`), and if rank 1 fails the result is none ("none
achieved"). -/
theorem C2_stage_ladder_cumulative :
    (∀ s : SessStats, determineStage s = specCumulativeStage s) ∧
    stagePass c2Stats Stage.restorative_abiding = false ∧
    stagePass c2Stats Stage.taming = true ∧
    determineStage c2Stats = some Stage.continuous_abiding ∧
    (∀ s : SessStats, stagePass s Stage.inner_abiding = false →
      determineStage s = none) := by
  refine ⟨determineStage_eq_spec, ?_, ?_, ?_, ?_⟩
  · norm_num [stagePass, stageThresholds, gateFails, c2Stats, initStats]
  · norm_num [stagePass, stageThresholds, gateFails, c2Stats, initStats]
  · have hi : stagePass c2Stats Stage.inner_abiding = true := by
      norm_num [stagePass, stageThresholds, gateFails, c2Stats, initStats]
    have hc : stagePass c2Stats Stage.continuous_abiding = true := by
      norm_num [stagePass, stageThresholds, gateFails, c2Stats, initStats]
    have hr : stagePass c2Stats Stage.restorative_abiding = false := by
      norm_num [stagePass, stageThresholds, gateFails, c2Stats, initStats]
    rw [determineStage, stageOrder]
    rw [determineStageAux, if_pos hi, determineStageAux, if_pos hc,
        determineStageAux, if_neg (by rw [hr]; exact Bool.false_ne_true)]
  · intro s hs
    rw [determineStage, stageOrder, determineStageAux,
        if_neg (by rw [hs]; exact Bool.false_ne_true)]

/-- Witness for C2's hypothesis-bearing conjunct: all-zero statistics fail
rank 1 (ratio 0 below 0.30), so no stage is achieved. -/
theorem C2_witness :
    stagePass initStats Stage.inner_abiding = false ∧
    determineStage initStats = none := by
  have h : stagePass initStats Stage.inner_abiding = false := by
    norm_num [stagePass, stageThresholds, gateFails, initStats]
  exact ⟨h, C2_stage_ladder_cumulative.2.2.2.2 initStats h⟩

/-- C3 (code bug): the claim says every named gate of a rank's threshold set
is evaluated, including rank 1's `min_continuous_seconds` gate of 10.  The
threshold table does list that gate, but the `if/elif` chain of
`_determine_stage` has no branch for it, so it can never fail: statistics
with on-object ratio exactly 0.30 and every other statistic zero are awarded
rank 1 on the ratio gate alone. -/
theorem C3_min_continuous_gate_never_checked :
    (∀ (s : SessStats) (t : ℚ),
      gateFails s GateKey.min_continuous_seconds t = false) ∧
    (stageThresholds Stage.inner_abiding).lookup GateKey.min_continuous_seconds =
      some 10 ∧
    determineStage c3Stats = some Stage.inner_abiding := by
  refine ⟨fun s t => rfl, rfl, ?_⟩
  have hi : stagePass c3Stats Stage.inner_abiding = true := by
    norm_num [stagePass, stageThresholds, gateFails, c3Stats, initStats]
  have hc : stagePass c3Stats Stage.continuous_abiding = false := by
    norm_num [stagePass, stageThresholds, gateFails, c3Stats, initStats]
  rw [determineStage, stageOrder, determineStageAux, if_pos hi,
      determineStageAux, if_neg (by rw [hc]; exact Bool.false_ne_true)]

/-- C6: `notice()` while off-object captures the wandering duration as the
latency, appends it to the latency list, and applies the three-band seed
deltas (under 3 s: mindfulness +0.02, diligence +0.01; under 7 s: mindfulness
+0.01; otherwise mindfulness −0.005, restlessness +0.005), each result
clamped to [0,1]; the mindfulness delta for a 2 s latency is strictly greater
than for a 10 s latency; while on-object `notice()` returns noticed = false
and mutates nothing. -/
theorem C6_notice_bands :
    (∀ e : Engine,
      (e.state.on_object = true →
        player_notice e = (e, { noticed := false, latency := 0, seed_changes := [] })) ∧
      (e.state.on_object = false →
        ((player_notice e).2).noticed = true ∧
        ((player_notice e).2).latency = e.state.wandering_duration ∧
        ((player_notice e).1).stats.noticing_latencies =
          e.stats.noticing_latencies ++ [e.state.wandering_duration] ∧
        ((player_notice e).1).seeds.mindfulness =
          clamp01 (e.seeds.mindfulness +
            (if e.state.wandering_duration < 3 then 0.02
             else if e.state.wandering_duration < 7 then 0.01 else -0.005)) ∧
        ((player_notice e).1).seeds.diligence =
          (if e.state.wandering_duration < 3 then clamp01 (e.seeds.diligence + 0.01)
           else e.seeds.diligence) ∧
        ((player_notice e).1).seeds.restlessness =
          (if e.state.wandering_duration < 7 then e.seeds.restlessness
           else clamp01 (e.seeds.restlessness + 0.005)))) ∧
    ((player_notice (offEngine 10)).1.seeds.mindfulness -
        (offEngine 10).seeds.mindfulness <
      (player_notice (offEngine 2)).1.seeds.mindfulness -
        (offEngine 2).seeds.mindfulness) := by
  constructor
  · intro e
    refine ⟨notice_on e, fun h => ?_⟩
    rw [notice_off e h]
    by_cases h3 : e.state.wandering_duration < 3
    · have h7 : e.state.wandering_duration < 7 := h3.trans (by norm_num)
      simp [h3, h7]
    · by_cases h7 : e.state.wandering_duration < 7
      · simp [h3, h7]
      · simp [h3, h7, sub_eq_add_neg]
  · rw [notice_off (offEngine 2) rfl, notice_off (offEngine 10) rfl]
    norm_num [offEngine, mkEngine, initState, defaultSeeds, clamp01,
      min_def, max_def]

/-- Witness for C6: a notice at 2 s latency reports noticed = true and the
exact band deltas. -/
theorem C6_witness :
    ((player_notice (offEngine 2)).2).noticed = true ∧
    ((player_notice (offEngine 2)).2).latency = 2 := by
  have h := (C6_notice_bands.1 (offEngine 2)).2 rfl
  exact ⟨h.1, h.2.1⟩

/-- C7: `return_()` while off-object records the wandering duration as
recovery time, increments the return count, sets on-object, zeroes the
wandering duration, adds the fixed +0.05 stability bonus, and clears the
whole active-hindrances set; while on-object it returns returned = false and
mutates nothing. -/
theorem C7_return_effects (e : Engine) :
    (e.state.on_object = true →
      player_return e = (e, { returned := false, recovery_time := 0 })) ∧
    (e.state.on_object = false →
      (player_return e).2 =
        { returned := true, recovery_time := e.state.wandering_duration } ∧
      ((player_return e).1).stats.recovery_times =
        e.stats.recovery_times ++ [e.state.wandering_duration] ∧
      ((player_return e).1).stats.return_count = e.stats.return_count + 1 ∧
      ((player_return e).1).state.on_object = true ∧
      ((player_return e).1).state.wandering_duration = 0 ∧
      ((player_return e).1).state.stability = e.state.stability + 0.05 ∧
      ((player_return e).1).state.active_hindrances = []) := by
  refine ⟨return_on e, fun h => ?_⟩
  rw [return_off e h]
  exact ⟨rfl, rfl, rfl, rfl, rfl, rfl, rfl⟩

/-- Witness for C7: a return at 1 s wandering empties the active set and
reports returned = true. -/
theorem C7_witness :
    ((player_return (offEngine 1)).1).state.active_hindrances = [] ∧
    (player_return (offEngine 1)).2 = { returned := true, recovery_time := 1 } := by
  have h := C7_return_effects (offEngine 1)
  exact ⟨(h.2 rfl).2.2.2.2.2.2, (h.2 rfl).1⟩

/-- C9: `adjust(action)` reports adjusted = true on every path, including the
three no-effect paths (`raise` while not dull, `relax` while not restless, an
unrecognized action), which leave the engine unchanged and are recognizable
only through the effect text. -/
theorem C9_adjust_flag_always_true (e : Engine) (a : String) :
    ((player_adjust e a).2).adjusted = true ∧
    (a = raiseAction → e.state.is_dull = false →
      player_adjust e a = (e, { adjusted := true, effect := raiseNoNeed })) ∧
    (a = relaxAction → e.state.is_restless = false →
      player_adjust e a = (e, { adjusted := true, effect := relaxNoNeed })) ∧
    (a ≠ raiseAction → a ≠ relaxAction →
      player_adjust e a = (e, { adjusted := true, effect := "" })) := by
  refine ⟨?_, ?_, ?_, ?_⟩
  · dsimp only [player_adjust]
    split_ifs <;> rfl
  · intro ha hd
    subst ha
    simp [player_adjust, hd]
  · intro ha hr
    subst ha
    rw [player_adjust, if_neg (by simp [relaxAction, raiseAction]), if_pos rfl,
        if_neg (by rw [hr]; exact Bool.false_ne_true)]
  · intro ha hr
    rw [player_adjust, if_neg ha, if_neg hr]

/-- Witness for C9: `raise` on a fresh (not dull) engine is the flagged
no-op. -/
theorem C9_witness :
    player_adjust (mkEngine defaultSeeds defaultParticular) raiseAction =
      (mkEngine defaultSeeds defaultParticular,
       { adjusted := true, effect := raiseNoNeed }) :=
  (C9_adjust_flag_always_true (mkEngine defaultSeeds defaultParticular)
    raiseAction).2.1 rfl rfl

/-- C10: `notice()` has no once-per-episode guard: n consecutive notices
while off-object leave the engine off-object with the same wandering
duration, append n copies of that duration to the latency list, and each
further call still reports noticed = true; three notices at 2 s stack three
fast-band rewards (mindfulness 0.5 → 0.56) and append three latencies. -/
theorem C10_notice_no_episode_guard :
    (∀ (n : ℕ) (e : Engine), e.state.on_object = false →
      (noticeN n e).state.on_object = false ∧
      (noticeN n e).state.wandering_duration = e.state.wandering_duration ∧
      (noticeN n e).stats.noticing_latencies =
        e.stats.noticing_latencies ++
          List.replicate n e.state.wandering_duration ∧
      ((player_notice (noticeN n e)).2).noticed = true) ∧
    (noticeN 3 (offEngine 2)).seeds.mindfulness = 0.56 ∧
    (noticeN 3 (offEngine 2)).stats.noticing_latencies = [2, 2, 2] := by
  have main : ∀ (n : ℕ) (e : Engine), e.state.on_object = false →
      (noticeN n e).state.on_object = false ∧
      (noticeN n e).state.wandering_duration = e.state.wandering_duration ∧
      (noticeN n e).stats.noticing_latencies =
        e.stats.noticing_latencies ++
          List.replicate n e.state.wandering_duration ∧
      ((player_notice (noticeN n e)).2).noticed = true := by
    intro n
    induction n with
    | zero =>
      intro e h
      refine ⟨h, rfl, by simp [noticeN], ?_⟩
      rw [noticeN, notice_off e h]
    | succ n ih =>
      intro e h
      have hstep := notice_off e h
      have h1 : (player_notice e).1.state.on_object = false := by
        rw [hstep]
        exact h
      have h1wd : (player_notice e).1.state.wandering_duration =
          e.state.wandering_duration := by
        rw [hstep]
      have h1lat : (player_notice e).1.stats.noticing_latencies =
          e.stats.noticing_latencies ++ [e.state.wandering_duration] := by
        rw [hstep]
      have hrec := ih (player_notice e).1 h1
      rw [noticeN]
      refine ⟨hrec.1, by rw [hrec.2.1, h1wd], ?_, hrec.2.2.2⟩
      rw [hrec.2.2.1, h1lat, h1wd, List.append_assoc]
      simp [List.replicate_succ]
  refine ⟨main, ?_, ?_⟩
  · show (noticeN 3 (offEngine 2)).seeds.mindfulness = 0.56
    rw [noticeN, noticeN, noticeN, noticeN, notice_off (offEngine 2) rfl,
        notice_off _ rfl, notice_off _ rfl]
    norm_num [offEngine, mkEngine, initState, defaultSeeds, clamp01,
      min_def, max_def]
  · rw [noticeN, noticeN, noticeN, noticeN, notice_off (offEngine 2) rfl,
        notice_off _ rfl, notice_off _ rfl]
    norm_num [offEngine, mkEngine, initState, initStats, defaultSeeds, clamp01,
      min_def, max_def]

/-- Witness for C10: two notices while off-object at 2 s append two
latencies. -/
theorem C10_witness :
    (noticeN 2 (offEngine 2)).stats.noticing_latencies = [2, 2] := by
  have h := (C10_notice_no_episode_guard.1 2 (offEngine 2) rfl).2.2.1
  simpa [offEngine, mkEngine, initStats, initState] using h

/-- C8: at every reachable state, on-object implies zero wandering duration;
while off-object a successful tick keeps the session off-object and never
decreases the wandering duration (only `return_()` resets it). -/
theorem C8_wandering_duration_invariant (e : Engine) (h : Reach e) :
    (e.state.on_object = true → e.state.wandering_duration = 0) ∧
    (e.state.on_object = false →
      ∀ (pr : ℕ → ℚ) (wb : Bool) (e' : Engine) (r : TickResult),
        tick e pr wb = Except.ok (e', r) →
        e.state.wandering_duration ≤ e'.state.wandering_duration ∧
        e'.state.on_object = false) := by
  have hinv := reach_wanderInv e h
  refine ⟨hinv.1, fun hoff pr wb e' r hok => ?_⟩
  by_cases hd : e.session_duration = 0
  · rw [tick_eq_error e pr wb hd] at hok
    exact absurd hok (by simp)
  · rw [tick_eq_ok e pr wb hd] at hok
    have hcore := (Except.ok.injEq _ _).mp hok
    have he' : e' =
        tickStats ((tickEvents (tickAxes
          ((tickPressure { e with elapsed_seconds := e.elapsed_seconds + 1 } pr).1)
          ((tickPressure { e with elapsed_seconds := e.elapsed_seconds + 1 } pr).2)) wb).1) := by
      rw [show e' = (tickCore { e with elapsed_seconds := e.elapsed_seconds + 1 } pr wb).1 from by
            rw [hcore]]
      rfl
    set E2 := tickAxes
      ((tickPressure { e with elapsed_seconds := e.elapsed_seconds + 1 } pr).1)
      ((tickPressure { e with elapsed_seconds := e.elapsed_seconds + 1 } pr).2) with hE2
    have hE2on : E2.state.on_object = false := hoff
    set E3 := (tickEvents E2 wb).1 with hE3
    have hoffE3 : E3.state.on_object = false ∧
        E3.wander_start_time = E2.wander_start_time := tickEvents_off E2 wb hE2on
    have h3pres := tickEvents_preserves E2 wb
    have hone : e'.state.on_object = false := by
      rw [he', (tickStats_preserves E3).2.2.1]
      exact hoffE3.1
    refine ⟨?_, hone⟩
    have hwd3 := tickStats_wd E3
    rw [hoffE3.1] at hwd3
    simp only [Bool.false_eq_true, if_false, ite_false] at hwd3
    rw [he', hwd3]
    have hel3 : E3.elapsed_seconds = e.elapsed_seconds + 1 := h3pres.2.2.2.1
    have hws3 : E3.wander_start_time = e.wander_start_time := hoffE3.2
    rw [hel3, hws3, hinv.2 hoff]
    push_cast
    linarith

/-- Witness for C8: a freshly started session is on-object with zero
wandering duration. -/
theorem C8_witness : c1Start.state.wandering_duration = 0 :=
  (C8_wandering_duration_invariant c1Start
    (Reach.start zeroHSeeds zeroParticular 10)).1 rfl

/-- C1 (amended part): after every successful tick — for any seeds,
faculties, state and randomness — both axes lie in [0.1, 0.95]; this is the
clamp of `_update_stability_clarity`, which the later tick phases never
disturb.  (The interventions, by contrast, apply their deltas unclamped: see
the counterexample.) -/
theorem C1_tick_clamps_axes (e : Engine) (pr : ℕ → ℚ) (wb : Bool)
    (e' : Engine) (r : TickResult) (h : tick e pr wb = Except.ok (e', r)) :
    ((0.1 : ℚ) ≤ e'.state.stability ∧ e'.state.stability ≤ 0.95) ∧
    ((0.1 : ℚ) ≤ e'.state.clarity ∧ e'.state.clarity ≤ 0.95) := by
  by_cases hd : e.session_duration = 0
  · rw [tick_eq_error e pr wb hd] at h
    exact absurd h (by simp)
  · rw [tick_eq_ok e pr wb hd] at h
    have hcore := (Except.ok.injEq _ _).mp h
    have he' : e' =
        tickStats ((tickEvents (tickAxes
          ((tickPressure { e with elapsed_seconds := e.elapsed_seconds + 1 } pr).1)
          ((tickPressure { e with elapsed_seconds := e.elapsed_seconds + 1 } pr).2)) wb).1) := by
      rw [show e' = (tickCore { e with elapsed_seconds := e.elapsed_seconds + 1 } pr wb).1 from by
            rw [hcore]]
      rfl
    set E2 := tickAxes
      ((tickPressure { e with elapsed_seconds := e.elapsed_seconds + 1 } pr).1)
      ((tickPressure { e with elapsed_seconds := e.elapsed_seconds + 1 } pr).2) with hE2
    set E3 := (tickEvents E2 wb).1 with hE3
    have hb := tickAxes_bounds
      ((tickPressure { e with elapsed_seconds := e.elapsed_seconds + 1 } pr).1)
      ((tickPressure { e with elapsed_seconds := e.elapsed_seconds + 1 } pr).2)
    have hs : e'.state.stability = E2.state.stability := by
      rw [he', (tickStats_preserves E3).1, (tickEvents_preserves E2 wb).1]
    have hc : e'.state.clarity = E2.state.clarity := by
      rw [he', (tickStats_preserves E3).2.1, (tickEvents_preserves E2 wb).2.1]
    rw [hs, hc]
    exact hb

/-- Witness for C1: the bounds hold concretely after the first tick of the
all-zero session. -/
theorem C1_witness :
    ((0.1 : ℚ) ≤
        ((tickCore { c1Start with elapsed_seconds := c1Start.elapsed_seconds + 1 }
          prHigh false).1).state.stability ∧
      ((tickCore { c1Start with elapsed_seconds := c1Start.elapsed_seconds + 1 }
          prHigh false).1).state.stability ≤ 0.95) ∧
    ((0.1 : ℚ) ≤
        ((tickCore { c1Start with elapsed_seconds := c1Start.elapsed_seconds + 1 }
          prHigh false).1).state.clarity ∧
      ((tickCore { c1Start with elapsed_seconds := c1Start.elapsed_seconds + 1 }
          prHigh false).1).state.clarity ≤ 0.95) :=
  C1_tick_clamps_axes c1Start prHigh false
    ((tickCore { c1Start with elapsed_seconds := c1Start.elapsed_seconds + 1 }
        prHigh false).1)
    ((tickCore { c1Start with elapsed_seconds := c1Start.elapsed_seconds + 1 }
        prHigh false).2)
    (by rw [tick_eq_ok c1Start prHigh false
              (by norm_num [c1Start, startSession, mkEngine]), Prod.mk.eta])

/-- C1 (counterexample): over all-zero stores, one tick of a fresh 10-minute
session leaves the engine dull with stability at the floor 0.1, and a single
`adjust("raise")` then drives stability to 0.07 < 0.1: the intervention
applies its −0.03 delta with no clamp, so the claimed "0.1 ≤ stability after
each operation / all deltas pass through the tick clamp" is false. -/
theorem C1_counterexample :
    (tick c1Start prHigh false).toOption.map
      (fun p => ((player_adjust p.1 raiseAction).1).state.stability) =
      some (7/100) ∧
    ¬ ((0.1 : ℚ) ≤ 7/100) := by
  refine ⟨?_, by norm_num⟩
  have hd : c1Start.session_duration ≠ 0 := by
    norm_num [c1Start, startSession, mkEngine]
  have he0 : { c1Start with elapsed_seconds := c1Start.elapsed_seconds + 1 } = c1E0 := by
    norm_num [c1Start, c1E0, startSession, mkEngine, calcBaseStability,
      calcBaseClarity, zeroHSeeds, zeroParticular, initState, initStats,
      min_def, max_def]
  have hP : tickPressure c1E0 prHigh = (c1E0, c1Press) := by
    norm_num [tickPressure, hindranceOrder, hindranceStep, hindranceBase,
      fatigueFactor, Seeds.hind, clamp01, setN, getN, c1E0, c1Press, zeroHSeeds,
      zeroParticular, prHigh, initState, initStats, min_def, max_def, List.lookup]
  have hA : tickAxes c1E0 c1Press = c1E2 := by
    have hlr : ((c1Press.lookup Hid.restlessness).getD 0) = 599/6000 := rfl
    have hls : ((c1Press.lookup Hid.sloth_torpor).getD 0) = 1/3000 := rfl
    norm_num [tickAxes, calcBaseStability, calcBaseClarity, stabilityDamage,
      clarityDamage, c1E0, c1E2, zeroHSeeds, zeroParticular, initState, initStats,
      min_def, max_def, hlr, hls]
  have hE : tickEvents c1E2 false = (c1E3, [dullEvent, restlessEvent]) := by
    norm_num [tickEvents, c1E3, c1E2, c1E0, initState, initStats, min_def, max_def]
  have hS : tickStats c1E3 = c1E4 := by
    norm_num [tickStats, c1E4, c1E3, c1E2, c1E0, initState, initStats]
  have hcore : tickCore c1E0 prHigh false = (c1E4, c1R) := by
    simp only [tickCore]
    rw [hP]
    dsimp only
    rw [hA, hE]
    dsimp only
    rw [hS]
    norm_num [c1R, c1E4, c1E3, c1E2, c1E0, initState, initStats]
  rw [tick_eq_ok c1Start prHigh false hd, he0, hcore]
  norm_num [Except.toOption, player_adjust, raiseAction, c1E4, c1E3, c1E2, c1E0,
    initState, zeroHSeeds, min_def, max_def]

/-- C4 (counterexample): with the configured 60-second duration fully
elapsed, `tick()` is neither rejected nor a distinct terminal no-op: it
returns a normal `ok` result, advances elapsed time to 61, and mutates the
state (stability moves from 1/2 to 191/400). -/
theorem C4_counterexample :
    c4E.elapsed_seconds = 60 ∧ c4E.session_duration = 60 ∧
    (tick c4E prHigh false).toOption.map
      (fun p => (p.1.elapsed_seconds, p.2.elapsed, p.1.state.stability)) =
      some (61, 61, 191/400) ∧
    c4E.state.stability = 1/2 ∧ ((191 : ℚ)/400 ≠ 1/2) := by
  refine ⟨rfl, rfl, ?_, by norm_num [c4E, mkEngine, initState], by norm_num⟩
  have hd : c4E.session_duration ≠ 0 := by norm_num [c4E, mkEngine]
  have he0 : { c4E with elapsed_seconds := c4E.elapsed_seconds + 1 } = c4E0 := by
    norm_num [c4E, c4E0, mkEngine]
  have hP : tickPressure c4E0 prHigh = (c4E0, c4Press) := by
    norm_num [tickPressure, hindranceOrder, hindranceStep, hindranceBase,
      fatigueFactor, Seeds.hind, clamp01, setN, getN, c4E0, c4Press, defaultSeeds,
      defaultParticular, prHigh, initState, initStats, min_def, max_def,
      List.lookup]
  have hA : tickAxes c4E0 c4Press = c4E2 := by
    have hlr : ((c4Press.lookup Hid.restlessness).getD 0) = 2/5 := rfl
    have hls : ((c4Press.lookup Hid.sloth_torpor).getD 0) = 3/5 := rfl
    norm_num [tickAxes, calcBaseStability, calcBaseClarity, stabilityDamage,
      clarityDamage, c4E0, c4E2, defaultSeeds, defaultParticular, initState,
      initStats, min_def, max_def, hlr, hls]
  have hE : tickEvents c4E2 false = (c4E2, []) := by
    norm_num [tickEvents, c4E2, c4E0, initState, initStats, min_def, max_def]
  have hS : tickStats c4E2 = c4E4 := by
    norm_num [tickStats, c4E4, c4E2, c4E0, initState, initStats]
  have hcore : tickCore c4E0 prHigh false = (c4E4, c4R) := by
    simp only [tickCore]
    rw [hP]
    dsimp only
    rw [hA, hE]
    dsimp only
    rw [hS]
    norm_num [c4R, c4E4, c4E2, c4E0, initState, initStats]
  rw [tick_eq_ok c4E prHigh false hd, he0, hcore]
  norm_num [Except.toOption, c4E4, c4E2, c4E0, c4R, initState, initStats]

/-- C4 (amended part): `start_session` accepts any integer duration without
validation (`session_duration = minutes * 60`, even zero or negative), and
`tick` performs no end-of-session check: whenever the duration is non-zero it
succeeds and advances elapsed time by one exactly as any normal tick, while a
zero duration makes it raise `ZeroDivisionError` after elapsed time was
already incremented. -/
theorem C4_no_terminal_check (e : Engine) (pr : ℕ → ℚ) (wb : Bool) :
    (e.session_duration = 0 →
      tick e pr wb = .error { e with elapsed_seconds := e.elapsed_seconds + 1 }) ∧
    (e.session_duration ≠ 0 →
      tick e pr wb =
        Except.ok
          ((tickCore { e with elapsed_seconds := e.elapsed_seconds + 1 } pr wb).1,
           (tickCore { e with elapsed_seconds := e.elapsed_seconds + 1 } pr wb).2) ∧
      ((tickCore { e with elapsed_seconds := e.elapsed_seconds + 1 } pr wb).1).elapsed_seconds =
        e.elapsed_seconds + 1 ∧
      ((tickCore { e with elapsed_seconds := e.elapsed_seconds + 1 } pr wb).2).elapsed =
        e.elapsed_seconds + 1) ∧
    (∀ m : ℤ, (startSession e m).session_duration = m * 60) := by
  refine ⟨tick_eq_error e pr wb, fun hd => ⟨?_, ?_, ?_⟩, fun m => rfl⟩
  · rw [tick_eq_ok e pr wb hd, Prod.mk.eta]
  · show (tickStats ((tickEvents (tickAxes
        ((tickPressure { e with elapsed_seconds := e.elapsed_seconds + 1 } pr).1)
        ((tickPressure { e with elapsed_seconds := e.elapsed_seconds + 1 } pr).2))
        wb).1)).elapsed_seconds = e.elapsed_seconds + 1
    rw [(tickStats_preserves _).2.2.2.2.2.2.1, (tickEvents_preserves _ _).2.2.2.1]
    rfl
  · show (tickStats ((tickEvents (tickAxes
        ((tickPressure { e with elapsed_seconds := e.elapsed_seconds + 1 } pr).1)
        ((tickPressure { e with elapsed_seconds := e.elapsed_seconds + 1 } pr).2))
        wb).1)).elapsed_seconds = e.elapsed_seconds + 1
    rw [(tickStats_preserves _).2.2.2.2.2.2.1, (tickEvents_preserves _ _).2.2.2.1]
    rfl

/-- Witness for C4: a session started with `duration_minutes = 0` is
accepted (duration 0), and its first tick raises. -/
theorem C4_witness :
    tick c4Zero prHigh false =
      .error { c4Zero with elapsed_seconds := c4Zero.elapsed_seconds + 1 } ∧
    c4Zero.session_duration = 0 :=
  ⟨(C4_no_terminal_check c4Zero prHigh false).1 rfl, rfl⟩

/-- C5 (counterexample): with the sloth-torpor seed at 1 and fatigue factor
1/2, the raw base is 11/10 while the clamped pressure is 1.  The draw 0.105
is at least the claimed activation probability `clamped pressure × 0.1 = 0.1`,
yet the hindrance activates, and the recorded strength is the raw 11/10 > 1 —
so activation and strength use the unclamped base, not the clamped pressure. -/
theorem C5_counterexample :
    (tick c5E c5Pr false).toOption.map
      (fun p => (p.1.state.active_hindrances, p.1.stats.hindrance_activations)) =
      some ([(Hid.sloth_torpor, 11/10)], [(Hid.sloth_torpor, 1)]) ∧
    (1 : ℚ) < 11/10 ∧
    clamp01 (11/10) * 0.1 ≤ c5Pr 0 := by
  refine ⟨?_, by norm_num, by norm_num [clamp01, c5Pr, min_def, max_def]⟩
  have hd : c5E.session_duration ≠ 0 := by norm_num [c5E, mkEngine]
  have he0 : { c5E with elapsed_seconds := c5E.elapsed_seconds + 1 } = c5E0 := by
    norm_num [c5E, c5E0, mkEngine]
  have hP : tickPressure c5E0 c5Pr = (c5E1, c5Press) := by
    norm_num [tickPressure, hindranceOrder, hindranceStep, hindranceBase,
      fatigueFactor, Seeds.hind, clamp01, setN, getN, c5E0, c5E1, c5Press,
      c5Seeds, zeroParticular, c5Pr, initState, initStats, min_def, max_def,
      List.lookup]
  have hA : tickAxes c5E1 c5Press = c5E2 := by
    have hlr : ((c5Press.lookup Hid.restlessness).getD 0) = 1/20 := rfl
    have hls : ((c5Press.lookup Hid.sloth_torpor).getD 0) = 1 := rfl
    norm_num [tickAxes, calcBaseStability, calcBaseClarity, stabilityDamage,
      clarityDamage, c5E1, c5E2, c5E0, c5Seeds, zeroParticular, initState,
      initStats, min_def, max_def, hlr, hls]
  have hE : tickEvents c5E2 false = (c5E3, [dullEvent]) := by
    norm_num [tickEvents, c5E3, c5E2, c5E1, c5E0, initState, initStats,
      min_def, max_def]
  have hS : tickStats c5E3 = c5E4 := by
    norm_num [tickStats, c5E4, c5E3, c5E2, c5E1, c5E0, initState, initStats]
  have hcore : tickCore c5E0 c5Pr false = (c5E4, c5R) := by
    simp only [tickCore]
    rw [hP]
    dsimp only
    rw [hA, hE]
    dsimp only
    rw [hS]
    norm_num [c5R, c5E4, c5E3, c5E2, c5E1, c5E0, initState, initStats]
  rw [tick_eq_ok c5E c5Pr false hd, he0, hcore]
  norm_num [Except.toOption, c5E4, c5E3, c5E2, c5E1, c5E0, initState, initStats]

/-- C5 (amended part): per hindrance and tick, the reported pressure is the
clamped base; but the activation decision and the recorded strength use the
raw pre-clamp base: a draw is consumed exactly when base > 0.6, and the
hindrance activates exactly when additionally the draw is below base × 0.1
and it is not already active, recording the raw base as strength, bumping its
activation counter and appending a log event. -/
theorem C5_activation_uses_raw_base (se : Seeds) (pa : Particular)
    (elapsed : ℕ) (dur : ℤ) (pr : ℕ → ℚ) (c : PressCtx) (h : Hid) :
    (hindranceStep se pa elapsed dur pr c h).pressure =
      c.pressure ++
        [(h, clamp01 (hindranceBase se pa (fatigueFactor elapsed dur) h))] ∧
    (hindranceStep se pa elapsed dur pr c h).k =
      c.k + (if 0.6 < hindranceBase se pa (fatigueFactor elapsed dur) h
             then 1 else 0) ∧
    ((hindranceStep se pa elapsed dur pr c h).active,
      (hindranceStep se pa elapsed dur pr c h).acts,
      (hindranceStep se pa elapsed dur pr c h).log) =
      (if 0.6 < hindranceBase se pa (fatigueFactor elapsed dur) h ∧
          pr c.k < hindranceBase se pa (fatigueFactor elapsed dur) h * 0.1 ∧
          (c.active.lookup h).isNone = true then
        (c.active ++ [(h, hindranceBase se pa (fatigueFactor elapsed dur) h)],
         setN c.acts h (getN c.acts h + 1),
         c.log ++ [(elapsed, Msg.hindranceArise h)])
      else (c.active, c.acts, c.log)) := by
  by_cases h1 : (0.6 : ℚ) < hindranceBase se pa (fatigueFactor elapsed dur) h
  · by_cases h2 : pr c.k < hindranceBase se pa (fatigueFactor elapsed dur) h * 0.1
    · by_cases h3 : (c.active.lookup h).isNone = true
      · rw [hindranceStep_activate rfl h1 h2 h3]
        exact ⟨rfl, by simp [h1], by rw [if_pos ⟨h1, h2, h3⟩]⟩
      · rw [hindranceStep_already rfl h1 h2 h3]
        exact ⟨rfl, by simp [h1], by rw [if_neg (fun hcj => h3 hcj.2.2)]⟩
    · rw [hindranceStep_drawFail rfl h1 h2]
      exact ⟨rfl, by simp [h1], by rw [if_neg (fun hcj => h2 hcj.2.1)]⟩
  · rw [hindranceStep_low rfl h1]
    exact ⟨rfl, by simp [h1], by rw [if_neg (fun hcj => h1 hcj.1)]⟩

end Dharma
